import Mathlib

/-!
Verification of the namesearch domain-availability core.

Shallow embedding of:
- src/backend/namesearch/utils/cache.py (in-memory result cache)
- src/backend/namesearch/utils/domain_checker.py (is_domain_available)
- src/backend/namesearch/services/whois_service.py (WHOISService)
- src/backend/namesearch/services/domain_monitor_service.py (DomainMonitorService)
- src/backend/namesearch/crud/domain_watch.py (CRUDDomainWatch)

Conventions: wall-clock instants are modelled as integer seconds
(Nat for the cache module, which only compares and adds; Int where
datetime subtraction can go negative). Network I/O outcomes (DNS probe,
WHOIS library call) are passed in as explicit data, so every embedded
function is pure and executable.
-/

namespace NameSearch

/-! ## Python string helpers

The code manipulates Python `str` values; we embed the operations it uses
(`in` on strings, `str.replace` with an empty replacement, `str.lower()`,
`str.strip()`, `str.split`) over `List Char`, so that everything reduces
in the kernel. -/

/-- Python `needle in hay` on strings: `needle` occurs as a contiguous
substring of `hay`. -/
def listHasSub (needle : List Char) : List Char → Bool
  | [] => needle.isEmpty
  | c :: rest => needle.isPrefixOf (c :: rest) || listHasSub needle rest

/-- Python `needle in hay` for `String`s. -/
def strHasSub (needle hay : String) : Bool :=
  listHasSub needle.data hay.data

/-- Python `s.replace(pat, '')`: delete every leftmost, non-overlapping
occurrence of `pat`, scanning left to right and continuing after each
deleted occurrence.  The recursion is structural on a fuel bounded by the
length of the scanned list (each step consumes at least one character). -/
def listDeleteAllFuel (pat : List Char) : Nat → List Char → List Char
  | _, [] => []
  | 0, s => s
  | fuel + 1, c :: rest =>
    if pat ≠ [] && pat.isPrefixOf (c :: rest) then
      listDeleteAllFuel pat fuel ((c :: rest).drop pat.length)
    else
      c :: listDeleteAllFuel pat fuel rest

/-- Python `s.replace(pat, '')` for `String`s. -/
def strDeleteAll (pat s : String) : String :=
  ⟨listDeleteAllFuel pat.data s.data.length s.data⟩

/-- Python `s.split('/')[0]`: the prefix up to (excluding) the first `'/'`,
or all of `s` when there is none. -/
def upToSlash (s : String) : String :=
  ⟨s.data.takeWhile (fun c => c ≠ '/')⟩

/-- Python `s.lower()` (ASCII case mapping, as in the domains handled). -/
def pyLower (s : String) : String :=
  ⟨s.data.map Char.toLower⟩

/-- Python `s.strip()`: remove leading and trailing whitespace. -/
def pyStrip (s : String) : String :=
  ⟨((s.data.dropWhile Char.isWhitespace).reverse.dropWhile Char.isWhitespace).reverse⟩

/-- Python `s.split(sep)` for a one-character separator (empty parts kept,
`"".split(sep) == [""]`). -/
def splitOnChar (sep : Char) : List Char → List (List Char)
  | [] => [[]]
  | c :: rest =>
    match splitOnChar sep rest with
    | [] => [[]]
    | g :: gs => if c = sep then [] :: g :: gs else (c :: g) :: gs

/-! ## Result cache — src/backend/namesearch/utils/cache.py

The Python module keeps a module-level dict `_cache` mapping an md5 key to
`{'data': ..., 'timestamp': ..., 'expires_at': ...}`.  We model the dict as
an association list whose insert overwrites the key, and md5 of the
lower-cased domain as the lower-cased domain itself (md5 is treated as an
injective key-derivation, so identity preserves exactly the collision
behaviour the code relies on). -/

/-- Entry of the module-level `_cache` dict: `{'data': d, 'timestamp': t,
'expires_at': e}` as written by `cache_domain`. -/
structure CacheEntry (α : Type) where
  data : α
  timestamp : Nat
  expires_at : Option Nat
  deriving DecidableEq, Repr

/-- The `_cache` dict, keyed by `get_cache_key`. -/
abbrev Cache (α : Type) := List (String × CacheEntry α)

/-- Embeds `get_cache_key(domain) = hashlib.md5(domain.lower().encode()).hexdigest()`:
md5 is modelled as the identity on the lower-cased domain (an injective
key-derivation). -/
def get_cache_key (domain : String) : String :=
  pyLower domain

/-- Dict lookup `_cache[key]` / `key in _cache`. -/
def Cache.find {α : Type} (c : Cache α) (key : String) : Option (CacheEntry α) :=
  match c with
  | [] => none
  | (k, e) :: rest => if k = key then some e else Cache.find rest key

/-- Dict removal `del _cache[key]` (keys are unique, the first binding wins). -/
def Cache.erase {α : Type} (c : Cache α) (key : String) : Cache α :=
  match c with
  | [] => []
  | (k, e) :: rest => if k = key then rest else (k, e) :: Cache.erase rest key

/-- Embeds `get_cached_domain(domain)`: return the stored `data` if the entry has an
unexpired explicit `expires_at` (strict `now < expires_at`), or — when
`expires_at` is absent — if the entry is younger than the 1-hour default TTL;
otherwise delete the stale entry (lazy eviction) and report a miss.  Returns
the result together with the cache state after the access. -/
def get_cached_domain {α : Type} (now : Nat) (c : Cache α) (domain : String) :
    Option α × Cache α :=
  let key := get_cache_key domain
  match c.find key with
  | none => (none, c)
  | some e =>
    match e.expires_at with
    | some exp =>
      if now < exp then (some e.data, c) else (none, c.erase key)
    | none =>
      if now - e.timestamp < 3600 then (some e.data, c) else (none, c.erase key)

/-- Embeds `cache_domain(domain, data, ttl)`: store `data` with `timestamp = now` and
`expires_at = now + ttl` when `ttl` is truthy (Python `if ttl` is false both
for `None` and for `0`, falling back to the implicit default-TTL entry). -/
def cache_domain {α : Type} (now : Nat) (c : Cache α) (domain : String)
    (data : α) (ttl : Option Nat) : Cache α :=
  let key := get_cache_key domain
  let exp : Option Nat :=
    match ttl with
    | some t => if t = 0 then none else some (now + t)
    | none => none
  (key, { data := data, timestamp := now, expires_at := exp }) :: c.erase key

/-! ## Domain normalisation and validation —
src/backend/namesearch/utils/domain_checker.py, lines 33-40 -/

/-- Lines 33-35 of `is_domain_available`:
`domain = domain.lower().strip()` followed by
`domain.replace('www.', '').replace('http://', '').replace('https://', '').split('/')[0]`.
`.lower()`/`.strip()` are `pyLower`/`pyStrip` above. -/
def normalize_domain (raw : String) : String :=
  let d := pyStrip (pyLower raw)
  let d := strDeleteAll "www." d
  let d := strDeleteAll "http://" d
  let d := strDeleteAll "https://" d
  upToSlash d

/-- Character class `[a-z0-9]` of the validation regex. -/
def isLowerAlnum (c : Char) : Bool :=
  (97 ≤ c.toNat && c.toNat ≤ 122) || (48 ≤ c.toNat && c.toNat ≤ 57)

/-- Character class `[a-z]`. -/
def isLowerAlpha (c : Char) : Bool :=
  97 ≤ c.toNat && c.toNat ≤ 122

/-- One dot-separated label against `[a-z0-9]+(-[a-z0-9]+)*`: hyphen-separated
groups, each a non-empty run of lower-case alphanumerics. -/
def valid_label (l : List Char) : Bool :=
  (splitOnChar '-' l).all (fun g => !g.isEmpty && g.all isLowerAlnum)

/-- Line 38's regex `^([a-z0-9]+(-[a-z0-9]+)*\.)+[a-z]{2,}$`: at least one
valid label, a dot, then a TLD of two or more lower-case letters. -/
def valid_domain (s : String) : Bool :=
  let parts := splitOnChar '.' s.data
  decide (2 ≤ parts.length) &&
    parts.dropLast.all valid_label &&
    (match parts.getLast? with
     | some tld => decide (2 ≤ tld.length) && tld.all isLowerAlpha
     | none => false)

/-! ## WHOIS library values

`whois.whois(domain)` returns a dict of inconsistently-typed fields.  The
embedded record keeps exactly the projections the repository reads.  A
date-like field can be absent/None, a `datetime`, an ISO string, or a list;
`PyDate` mirrors those cases.  An ISO-string value carries what
`datetime.fromisoformat(s.replace('Z', '+00:00'))` would produce on it —
the Python date parser is stdlib code outside this repository, so its
outcome on the concrete string is attached as data (`IsoParse`). -/

/-- Outcome of `datetime.fromisoformat(s.replace('Z', '+00:00'))` on an
ISO-string field: a `ValueError`, an offset-aware datetime (any string
ending in `Z` or carrying a `+hh:mm` offset — subtracting the naive
`datetime.utcnow()` from such a value raises `TypeError`), or a naive
datetime with the given timestamp. -/
inductive IsoParse
  | malformed
  | aware (t : Int)
  | naive (t : Int)
  deriving DecidableEq, Repr

/-- A Python date-like field value. -/
inductive PyDate
  | null
  | dt (t : Int)
  | isoStr (s : String) (parse : IsoParse)
  | emptyList
  | listHead (h : PyDate)
  deriving DecidableEq, Repr

/-- Python truthiness of a date-like field. -/
def PyDate.truthy : PyDate → Bool
  | .null => false
  | .dt _ => true
  | .isoStr s _ => !s.isEmpty
  | .emptyList => false
  | .listHead _ => true

/-- Embeds `exp_date = exp_date[0] if exp_date else None` after the
`isinstance(exp_date, list)` test — lists collapse to their head. -/
def PyDate.collapse : PyDate → PyDate
  | .emptyList => .null
  | .listHead h => h
  | x => x

/-- The expired-registration test shared by `is_domain_available` and
`WHOISService._determine_domain_status`: field truthy, list collapsed to its
head, value an actual `datetime`, and strictly in the past. -/
def date_expired (now : Nat) (v : PyDate) : Bool :=
  if v.truthy then
    match v.collapse with
    | .dt t => decide (t < (now : Int))
    | _ => false
  else false

/-- Projections of the `whois.whois` response dict that the repository
reads.  `raw` is `str(whois_data).lower()`, the full response rendered as
lower-case text.  `domain_name` is `""` when the field is absent or falsy;
`creation_date` and `name_servers` record the truthiness of those fields. -/
structure WhoisRec where
  raw : String
  domain_name : String
  status_tokens : List String
  expiration_date : PyDate
  creation_date : Bool
  name_servers : Bool
  deriving DecidableEq, Repr

/-- The "no such record" phrase list, declared identically in
`domain_checker.py` (availability_indicators) and in
`WHOISService._determine_domain_status`. -/
def availability_indicators : List String :=
  ["no match", "no data found", "not found",
   "no entries found", "no object found",
   "no such domain", "domain not found"]

/-! ## Availability checker —
src/backend/namesearch/utils/domain_checker.py, `is_domain_available` -/

/-- Outcome of `socket.gethostbyname(domain)`: resolution succeeds, or
raises `socket.gaierror`/`socket.herror`. -/
inductive DnsOutcome
  | resolves
  | noResolve
  deriving DecidableEq, Repr

/-- Outcome of the `whois.whois(domain)` call inside `is_domain_available`:
any raised exception (PywhoisError, socket.timeout, ...), a falsy/empty
response dict, or a populated response. -/
inductive WhoisOutcome
  | failure
  | emptyData
  | data (w : WhoisRec)
  deriving DecidableEq, Repr

/-- The `(is_available, whois_data)` pair computed in the DNS-failure branch
of `is_domain_available`, plus whether the code took the
`return result  # Early return for expired domains` path (which skips the
cache write). -/
structure LookupClass where
  is_available : Bool
  whois_data : Option WhoisRec
  early_return : Bool
  deriving DecidableEq, Repr

/-- Lines 56-119 of `is_domain_available`: the WHOIS branch taken when DNS
did not resolve.  Any exception yields `(False, None)` ("be conservative and
assume registered"); an empty dict yields `(True, None)`; otherwise the
phrase scan, the `domain_name` presence test, the expired-registration early
return, and the name-server/creation-date fallbacks, defaulting to
available. -/
def classify_lookup (now : Nat) (wo : WhoisOutcome) : LookupClass :=
  match wo with
  | .failure => ⟨false, none, false⟩
  | .emptyData => ⟨true, none, false⟩
  | .data w =>
    if availability_indicators.any (fun p => strHasSub p w.raw) then
      ⟨true, some w, false⟩
    else if !w.domain_name.isEmpty then
      if date_expired now w.expiration_date then ⟨true, some w, true⟩
      else if w.name_servers then ⟨false, some w, false⟩
      else if w.creation_date then ⟨false, some w, false⟩
      else ⟨true, some w, false⟩
    else
      ⟨true, some w, false⟩

/-- The dict cached by `is_domain_available`:
`{'is_available': ..., 'whois_data': ..., 'expires_at': now + ttl_hours}`. -/
structure CachedData where
  is_available : Bool
  whois_data : Option WhoisRec
  expires_at : Nat
  deriving DecidableEq, Repr

/-- Embeds `ttl_hours = 1 if result[0] else 24` — the TTL is derived from the
result's availability status, shorter for available results. -/
def ttl_hours (is_available : Bool) : Nat :=
  if is_available then 1 else 24

/-- Lines 121-133 of `is_domain_available`: cache the result under the
normalized domain with `ttl = ttl_hours * 3600` seconds. -/
def write_result_cache (now : Nat) (c : Cache CachedData) (domain : String)
    (res : Bool × Option WhoisRec) : Cache CachedData :=
  let ttl := ttl_hours res.1 * 3600
  cache_domain now c domain
    { is_available := res.1, whois_data := res.2, expires_at := now + ttl }
    (some ttl)

/-- The I/O environment a single `is_domain_available` call runs in: the DNS
probe outcome, the WHOIS call outcome, and the wall clock (integer seconds). -/
structure CheckEnv where
  dns : DnsOutcome
  whois : WhoisOutcome
  now : Nat
  deriving Repr

/-- Embeds `is_domain_available(domain)`: empty-input guard, normalization,
format validation, cache read, DNS probe (resolution ⇒ `(False, None)`),
WHOIS classification, and the status-derived cache write (skipped on the
expired-domain early return).  Returns the `(is_available, whois_data)`
pair together with the cache state after the call. -/
def is_domain_available (env : CheckEnv) (c : Cache CachedData) (raw : String) :
    (Bool × Option WhoisRec) × Cache CachedData :=
  if raw.isEmpty then ((false, none), c)
  else
    let domain := normalize_domain raw
    if !valid_domain domain then ((false, none), c)
    else
      match get_cached_domain env.now c domain with
      | (some cd, c1) => ((cd.is_available, cd.whois_data), c1)
      | (none, c1) =>
        let r : LookupClass :=
          match env.dns with
          | .resolves => ⟨false, none, false⟩
          | .noResolve => classify_lookup env.now env.whois
        if r.early_return then ((r.is_available, r.whois_data), c1)
        else
          ((r.is_available, r.whois_data),
            write_result_cache env.now c1 domain (r.is_available, r.whois_data))

/-! ## WHOIS service —
src/backend/namesearch/services/whois_service.py -/

/-- Embeds `DomainStatus` from src/backend/namesearch/models/domain.py: a `str`
enum, so Python compares its members equal to their string values. -/
inductive DomainStatus
  | available
  | registered
  | reserved
  | premium
  | unknown
  deriving DecidableEq, Repr

/-- The string value of a `DomainStatus` member (what gets stored in the
`last_status` column and compared against string literals). -/
def DomainStatus.toStr : DomainStatus → String
  | .available => "available"
  | .registered => "registered"
  | .reserved => "reserved"
  | .premium => "premium"
  | .unknown => "unknown"

/-- Embeds `registered_indicators` of `_determine_domain_status` (matched by exact
membership in the lowered status-token list, Python `in` on a list). -/
def registered_indicators : List String :=
  ["clientdeleteprohibited", "clienttransferprohibited",
   "clientupdateprohibited", "serverdeleteprohibited",
   "servertransferprohibited", "serverupdateprohibited",
   "active", "registered", "ok", "paid-till"]

/-- Embeds `WHOISService._determine_domain_status`: first-match-wins decision over
the WHOIS dict — missing domain name ⇒ UNKNOWN; `.ng` special case;
"no such record" phrases in the raw text ⇒ AVAILABLE; registry-lock/status
tokens ⇒ REGISTERED; expired expiration date ⇒ AVAILABLE; then creation
date or name servers ⇒ REGISTERED; else UNKNOWN. -/
def determine_domain_status (now : Nat) (w : WhoisRec) : DomainStatus :=
  let dn := pyLower w.domain_name
  if dn.isEmpty then .unknown
  else
    let status_lower := (w.status_tokens.filter (fun s => !s.isEmpty)).map pyLower
    let whois_str := w.raw
    if (".ng".data).isSuffixOf dn.data then
      if strHasSub "not found" whois_str then .available else .registered
    else if availability_indicators.any (fun p => strHasSub p whois_str) then
      .available
    else if registered_indicators.any (fun i => status_lower.contains i) then
      .registered
    else if date_expired now w.expiration_date then
      .available
    else if w.creation_date then
      .registered
    else if w.name_servers then
      .registered
    else
      .unknown

/-- Outcome of the `whois.whois(domain_name)` call inside
`WHOISService.lookup_domain`: a response dict, a raised `PywhoisError`
(with its message), or any other exception. -/
inductive WhoisCallResult
  | ok (w : WhoisRec)
  | pywhoisErr (msg : String)
  | otherErr
  deriving DecidableEq, Repr

/-- The `HTTPException`s `lookup_domain` raises: 400 on a PywhoisError that
is not a "No match", 500 on any other error. -/
inductive HTTPExc
  | badRequest (detail : String)
  | serverError (detail : String)
  deriving DecidableEq, Repr

/-- The fields of the dict returned by `lookup_domain` that its callers
read: the parsed domain name, the classified status, the raw
`expiration_date` field passed through by `_parse_whois_data`, and the
`is_available` key (present only in the "No match" branch). -/
structure LookupData where
  domain_name : String
  status : DomainStatus
  expiration_date : PyDate
  is_available_field : Option Bool
  deriving DecidableEq, Repr

/-- Embeds `WHOISService.lookup_domain`: on a response, parse it and attach
`_determine_domain_status`; on a `PywhoisError` containing "No match",
return an AVAILABLE stub dict (no expiration_date key); on any other
`PywhoisError` raise HTTP 400; on any other exception raise HTTP 500. -/
def lookup_domain (now : Nat) (domain_name : String) (call : WhoisCallResult) :
    Except HTTPExc LookupData :=
  match call with
  | .ok w =>
    .ok { domain_name := w.domain_name
          status := determine_domain_status now w
          expiration_date := w.expiration_date
          is_available_field := none }
  | .pywhoisErr msg =>
    if strHasSub "No match" msg then
      .ok { domain_name := domain_name
            status := .available
            expiration_date := .null
            is_available_field := some true }
    else
      .error (.badRequest msg)
  | .otherErr => .error (.serverError "An error occurred during WHOIS lookup")

/-- The dict returned by `WHOISService.check_domain_availability`:
`error_field` records whether the `"error"` key is present (the
exception-handler branch). -/
structure AvailabilityInfo where
  domain : String
  is_available : Bool
  status : DomainStatus
  whois_data : Option LookupData
  error_field : Bool
  deriving DecidableEq, Repr

/-- Embeds `WHOISService.check_domain_availability`: wrap `lookup_domain`; on
success report `is_available = (status == AVAILABLE)`; on any exception
(including the HTTPExceptions `lookup_domain` raises) report
`is_available = False` with `status = UNKNOWN` and an error field. -/
def check_domain_availability (now : Nat) (domain_name : String)
    (call : WhoisCallResult) : AvailabilityInfo :=
  match lookup_domain now domain_name call with
  | .ok data =>
    let ia := data.status = .available
    { domain := domain_name
      is_available := ia
      status := data.status
      whois_data := if ia then none else some data
      error_field := false }
  | .error _ =>
    { domain := domain_name
      is_available := false
      status := .unknown
      whois_data := none
      error_field := true }

/-! ## Domain watches —
src/backend/namesearch/models/domain_watch.py and
src/backend/namesearch/crud/domain_watch.py -/

/-- Row of the `domain_watches` table (the columns the monitor and CRUD
code touch).  `check_frequency` is in minutes; timestamps in integer
seconds. -/
structure Watch where
  id : Nat
  user_id : Nat
  domain : String
  is_active : Bool
  check_frequency : Nat
  last_checked : Option Int
  last_status : Option String
  whois_data : Option LookupData
  deriving DecidableEq, Repr

/-- Embeds `CRUDDomainWatch.get_active_watches`: all watches with
`is_active == True` — the only filter the monitor's load applies. -/
def get_active_watches (watches : List Watch) : List Watch :=
  watches.filter (fun w => w.is_active)

/-- The `DomainWatchCreate` schema fields (domain, is_active,
check_frequency); `last_checked`/`last_status` are not schema fields, so the
extra `None`s `DomainMonitorService.create_watch` passes are dropped by
pydantic. -/
structure WatchCreate where
  domain : String
  is_active : Bool
  check_frequency : Nat
  deriving DecidableEq, Repr

/-- Embeds `CRUDDomainWatch.create_with_user`: if a watch for (domain, user)
already exists, update it in place; otherwise insert a new row with
`last_checked = datetime.utcnow()` and `last_status = "unknown"`. -/
def create_with_user (existing : Option Watch) (obj : WatchCreate)
    (user_id : Nat) (now : Int) (new_id : Nat) : Watch :=
  match existing with
  | some w =>
    { w with
      domain := obj.domain
      is_active := obj.is_active
      check_frequency := obj.check_frequency }
  | none =>
    { id := new_id
      user_id := user_id
      domain := obj.domain
      is_active := obj.is_active
      check_frequency := obj.check_frequency
      last_checked := some now
      last_status := some "unknown"
      whois_data := none }

/-! ## Domain monitor —
src/backend/namesearch/services/domain_monitor_service.py -/

/-- Embeds the `NotificationType` members used by the monitor
(src/backend/namesearch/models/notification.py via NotificationService). -/
inductive NotifKind
  | domain_available
  | domain_expiring
  | domain_changed
  | domain_expired
  | domain_transferred
  deriving DecidableEq, Repr

/-- A successful `NotificationService.send_domain_notification` call made by
`_check_for_domain_changes` (recipient, domain and kind; the message text is
presentation only). -/
structure SentNotification where
  user_id : Nat
  domain : String
  kind : NotifKind
  deriving DecidableEq, Repr

/-- Embeds `DomainMonitorService._check_for_domain_changes`: skip entirely on a
first check (`previous_status is None`); on a status change send one
notification whose kind is derived from the new status string; then,
independently, when the `expiration_date` field is a *string* (the
`isinstance(expiration_date, str)` guard excludes the `datetime` values the
WHOIS library returns) that parses to a *naive* datetime 1-30 whole days
away, send a DOMAIN_EXPIRING notification.  A `ValueError` from
`fromisoformat` and the `TypeError` that `expiration_date -
datetime.utcnow()` raises for an offset-aware parse (any string with `Z` or
an explicit offset) are both caught by the `except (ValueError, TypeError)`
handler, which logs and sends nothing.  `days_until_expiry` is
`timedelta.days`, i.e. floor division of the difference by 86400 seconds. -/
def check_for_domain_changes (now : Int) (watch : Watch)
    (previous_status : Option String) (whois_data : LookupData) :
    List SentNotification :=
  let current_status := whois_data.status.toStr
  match previous_status with
  | none => []
  | some prev =>
    let status_notifs : List SentNotification :=
      if current_status ≠ prev then
        let kind : NotifKind :=
          if current_status = "available" then .domain_available
          else if current_status = "expired" then .domain_expired
          else if strHasSub "expir" (pyLower current_status) &&
                  strHasSub "soon" (pyLower current_status) then .domain_expiring
          else .domain_changed
        [{ user_id := watch.user_id, domain := watch.domain, kind := kind }]
      else []
    let expiring_notifs : List SentNotification :=
      match whois_data.expiration_date with
      | .isoStr s parse =>
        if !s.isEmpty then
          match parse with
          | .naive exp =>
            let days := Int.fdiv (exp - now) 86400
            if 0 < days && days ≤ 30 then
              [{ user_id := watch.user_id, domain := watch.domain,
                 kind := .domain_expiring }]
            else []
          | .malformed => []
          | .aware _ => []
        else []
      | _ => []
    status_notifs ++ expiring_notifs

/-- Embeds lines 116-137 of `DomainMonitorService._process_watch` — the
update/commit/notification block below the `await` — exactly as written:
set `last_checked = now` and `last_status` to the fresh status, commit,
then run change detection.  In the program this block is DEAD CODE: control
never gets past line 115 (see `process_watch`); it is embedded separately
to state what the skipped block would do. -/
def process_watch_success_block (now : Int) (whois_data : LookupData)
    (watch : Watch) : Watch × List SentNotification :=
  let previous_status := watch.last_status
  let updated :=
    { watch with
      last_checked := some now
      last_status := some whois_data.status.toStr
      whois_data := some whois_data }
  (updated, check_for_domain_changes now updated previous_status whois_data)

/-- Embeds `DomainMonitorService._process_watch`.  Line 115 reads
`whois_data = await whois_service.lookup_domain(watch.domain)`, but
`WHOISService.lookup_domain` is a synchronous classmethod: the call runs
(performing its network I/O, outcome `lookup_result`), and then either the
exception it raised propagates, or `await` applied to the returned dict
raises `TypeError: object dict can't be used in 'await' expression`.
Both land in the surrounding `except Exception`, which logs and calls
`db.rollback()`.  So every invocation ends in the handler before any field
assignment: the watch row is unchanged, nothing is committed, and no
notification is sent — the block embedded as
`process_watch_success_block` is never reached. -/
def process_watch (_now : Int) (lookup_result : Except HTTPExc LookupData)
    (watch : Watch) : Watch × List SentNotification :=
  match lookup_result with
  | .error _ => (watch, [])
  | .ok _ => (watch, [])

/-- One iteration of `DomainMonitorService._monitor_loop`: load all active
watches and call `_process_watch` on each one.  There is no due-time
computation — every active watch is processed (its synchronous registry
lookup invoked) on every cycle, whatever its `check_frequency` and
`last_checked` say; each per-watch processing then ends in the exception
handler (see `process_watch`). -/
def monitor_cycle (now : Int) (lookup : String → Except HTTPExc LookupData)
    (watches : List Watch) : List (Watch × List SentNotification) :=
  (get_active_watches watches).map (fun w => process_watch now (lookup w.domain) w)

/-! ## Interleaving model of two concurrent `is_domain_available` calls

`is_domain_available` is plain synchronous code with no lock, no in-flight
map and no other coordination; two concurrent callers (the synchronous
"check now" request and the background loop) interleave freely around its
two shared-cache accesses.  We model one call, on an already-normalized
valid domain, as two atomic steps against the shared cache: the cache read
(followed, on a miss, by the external DNS+WHOIS lookup, which is what the
single-flight requirement counts) and the cache write.  A schedule is the
list of which caller moves next; `lookups` counts external lookups
performed. -/

/-- Progress of one `is_domain_available` call: not started, holding a
fresh lookup result not yet written back, or done. -/
inductive SFPhase
  | ready
  | looked (res : Bool × Option WhoisRec) (early : Bool)
  | finished (res : Bool × Option WhoisRec)
  deriving DecidableEq, Repr

/-- Shared state of two concurrent calls for the same domain. -/
structure SFState where
  cache : Cache CachedData
  caller1 : SFPhase
  caller2 : SFPhase
  lookups : Nat
  deriving DecidableEq, Repr

/-- First atomic step of a call: the cache read of `is_domain_available`
and, on a miss, the external DNS probe / WHOIS lookup (one `lookups`
tick).  Mirrors the hit and miss branches of the source. -/
def sf_read (env : CheckEnv) (c : Cache CachedData) (domain : String) :
    SFPhase × Cache CachedData × Nat :=
  match get_cached_domain env.now c domain with
  | (some cd, c1) => (.finished (cd.is_available, cd.whois_data), c1, 0)
  | (none, c1) =>
    let r : LookupClass :=
      match env.dns with
      | .resolves => ⟨false, none, false⟩
      | .noResolve => classify_lookup env.now env.whois
    (.looked (r.is_available, r.whois_data) r.early_return, c1, 1)

/-- Second atomic step of a call: the status-derived cache write (skipped
on the expired-domain early return), then the call returns. -/
def sf_write (env : CheckEnv) (c : Cache CachedData) (domain : String)
    (res : Bool × Option WhoisRec) (early : Bool) : SFPhase × Cache CachedData :=
  if early then (.finished res, c)
  else (.finished res, write_result_cache env.now c domain res)

/-- Advance the chosen caller (`true` = caller 1) by one atomic step;
finished callers are left alone. -/
def sf_step (env : CheckEnv) (domain : String) (s : SFState) (who : Bool) : SFState :=
  match (if who then s.caller1 else s.caller2) with
  | .ready =>
    let (p, c, k) := sf_read env s.cache domain
    if who then { s with caller1 := p, cache := c, lookups := s.lookups + k }
    else { s with caller2 := p, cache := c, lookups := s.lookups + k }
  | .looked res early =>
    let (p, c) := sf_write env s.cache domain res early
    if who then { s with caller1 := p, cache := c }
    else { s with caller2 := p, cache := c }
  | .finished _ => s

/-- Run a schedule of interleaved steps. -/
def sf_run (env : CheckEnv) (domain : String) (sched : List Bool) (s : SFState) :
    SFState :=
  sched.foldl (sf_step env domain) s

/-- Both callers about to start against cache `c`. -/
def sf_init (c : Cache CachedData) : SFState :=
  { cache := c, caller1 := .ready, caller2 := .ready, lookups := 0 }

/-! ## Concrete fixtures used by the theorems below -/

/-- An active watch whose own interval says it is not yet due at `t = 1000`:
last checked at `t = 900`, interval 60 minutes (next due at `t = 4500`). -/
def watch_not_due : Watch :=
  { id := 1, user_id := 1, domain := "example.com", is_active := true,
    check_frequency := 60, last_checked := some 900,
    last_status := some "registered", whois_data := none }

/-- A lookup result classifying the domain as registered, with no
expiration information. -/
def registered_lookup : LookupData :=
  { domain_name := "example.com", status := .registered,
    expiration_date := .null, is_available_field := none }

/-- The lookup collaborator answering `registered_lookup` for every domain. -/
def registered_lookup_fn : String → Except HTTPExc LookupData :=
  fun _ => .ok registered_lookup

/-- A watch freshly inserted by `create_with_user` (no existing row) at
`t = 0` for user 7. -/
def fresh_watch : Watch :=
  create_with_user none
    { domain := "example.com", is_active := true, check_frequency := 60 } 7 0 1

/-- A watch on `example-test.io` last seen registered. -/
def exp5_watch : Watch :=
  { id := 2, user_id := 7, domain := "example-test.io", is_active := true,
    check_frequency := 60, last_checked := some 0,
    last_status := some "registered", whois_data := none }

/-- Lookup result: still registered, `expiration_date` a `datetime` 5 days
from `t = 0` (432000 s). -/
def exp5_dt_lookup : LookupData :=
  { domain_name := "example-test.io", status := .registered,
    expiration_date := .dt 432000, is_available_field := none }

/-- The same expiration instant carried as a `Z`-suffixed ISO string: after
the `'Z' → '+00:00'` replacement it parses to an offset-aware datetime, so
`expiration_date - datetime.utcnow()` raises `TypeError`. -/
def exp5_aware_lookup : LookupData :=
  { domain_name := "example-test.io", status := .registered,
    expiration_date := .isoStr "1970-01-06T00:00:00Z" (.aware 432000),
    is_available_field := none }

/-- The same expiration instant carried as a naive ISO string (no offset):
the only representation that reaches the days-until-expiry computation. -/
def exp5_naive_lookup : LookupData :=
  { domain_name := "example-test.io", status := .registered,
    expiration_date := .isoStr "1970-01-06T00:00:00" (.naive 432000),
    is_available_field := none }

/-- Environment for the single-flight scenario: DNS does not resolve and
the WHOIS call returns an empty dict, so a cache miss costs one external
lookup classifying the domain available. -/
def sf_env : CheckEnv :=
  { dns := .noResolve, whois := .emptyData, now := 0 }

/-- A fresh classification reporting the watched domain available. -/
def available_lookup : LookupData :=
  { domain_name := "example.com", status := .available,
    expiration_date := .null, is_available_field := none }

/-- A watch whose `last_status` column is NULL (never classified). -/
def unset_status_watch : Watch :=
  { id := 3, user_id := 1, domain := "example.com", is_active := true,
    check_frequency := 60, last_checked := none,
    last_status := none, whois_data := none }

/-! # Theorems -/

/-- C7: for every domain and cached value, a `get_cached_domain` after a
`cache_domain` put with a (non-zero) TTL returns exactly the data that was
put, with the cache untouched, as long as the read happens strictly before
`put-time + ttl`; once the TTL has elapsed the get reports a miss and the
stale entry has been removed by that very access (the cache returned is the
pre-put cache with the key erased). -/
theorem cache_put_get_within_ttl_then_miss {α : Type} (c : Cache α)
    (d : String) (x : α) (t tput tg1 tg2 : Nat) (ht : t ≠ 0)
    (h1 : tg1 < tput + t) (h2 : tput + t ≤ tg2) :
    get_cached_domain tg1 (cache_domain tput c d x (some t)) d
      = (some x, cache_domain tput c d x (some t))
    ∧ get_cached_domain tg2 (cache_domain tput c d x (some t)) d
      = (none, c.erase (get_cache_key d)) := by
  have h2' : ¬ tg2 < tput + t := by omega
  constructor
  · simp [get_cached_domain, cache_domain, Cache.find, ht, h1]
  · simp [get_cached_domain, cache_domain, Cache.find, Cache.erase, ht, h2']

/-- Witness for C7 at a concrete put/get pair: value 7 cached at `t = 0`
with a 3600 s TTL is returned at `t = 10` and gone at `t = 3600`. -/
theorem cache_put_get_within_ttl_then_miss_witness :
    (3600 : Nat) ≠ 0 ∧ 10 < 0 + 3600 ∧ 0 + 3600 ≤ 3600 ∧
    (get_cached_domain 10 (cache_domain 0 ([] : Cache Nat) "example.com" 7 (some 3600)) "example.com"
        = (some 7, cache_domain 0 ([] : Cache Nat) "example.com" 7 (some 3600))
      ∧ get_cached_domain 3600 (cache_domain 0 ([] : Cache Nat) "example.com" 7 (some 3600)) "example.com"
        = (none, Cache.erase ([] : Cache Nat) (get_cache_key "example.com"))) :=
  ⟨by decide, by decide, by decide,
    cache_put_get_within_ttl_then_miss ([] : Cache Nat) "example.com" 7 3600 0 10 3600
      (by decide) (by decide) (by decide)⟩

/-- C10: cache lookups are case-insensitive in the domain — after a put
under `d`, a get under any casing variant of `d` (any string with the same
`lower()` image, the quantity `get_cache_key` is computed from) within the
TTL returns the cached data. -/
theorem cache_get_case_variant {α : Type} (c : Cache α) (d dv : String)
    (x : α) (t tput tg : Nat) (hcase : pyLower dv = pyLower d) (ht : t ≠ 0)
    (h1 : tg < tput + t) :
    (get_cached_domain tg (cache_domain tput c d x (some t)) dv).1 = some x := by
  simp [get_cached_domain, cache_domain, Cache.find, get_cache_key, hcase, ht, h1]

/-- Witness for C10: a value cached under "Example.com" is returned for the
upper-cased query "EXAMPLE.COM" within the TTL. -/
theorem cache_get_case_variant_witness :
    pyLower "EXAMPLE.COM" = pyLower "Example.com" ∧ (3600 : Nat) ≠ 0 ∧ 5 < 0 + 3600 ∧
    (get_cached_domain 5 (cache_domain 0 ([] : Cache Nat) "Example.com" 7 (some 3600)) "EXAMPLE.COM").1
      = some 7 :=
  ⟨by decide, by decide, by decide,
    cache_get_case_variant ([] : Cache Nat) "Example.com" "EXAMPLE.COM" 7 3600 0 5
      (by decide) (by decide) (by decide)⟩

/-- C3: the cache entry `is_domain_available` writes always carries
`timestamp = now` and `expires_at = now + ttl_hours(result) * 3600`, where
`ttl_hours` is computed from the result's availability status alone
(1 hour when available, 24 hours otherwise — not a caller parameter); so
for two results differing only in status, the entry written for the
available one lives `3600` seconds and the entry for the registered one
`86400` seconds, strictly longer. -/
theorem available_ttl_shorter_than_registered (now : Nat)
    (c : Cache CachedData) (d : String) :
    (∀ res : Bool × Option WhoisRec,
        (write_result_cache now c d res).find (get_cache_key d)
          = some { data := { is_available := res.1, whois_data := res.2,
                             expires_at := now + ttl_hours res.1 * 3600 },
                   timestamp := now,
                   expires_at := some (now + ttl_hours res.1 * 3600) })
    ∧ (now + ttl_hours true * 3600) - now < (now + ttl_hours false * 3600) - now := by
  constructor
  · intro res
    have ht : ttl_hours res.1 * 3600 ≠ 0 := by
      cases hres : res.1 <;> simp [ttl_hours, hres]
    simp [write_result_cache, cache_domain, Cache.find, ht]
  · simp [ttl_hours]

/-- C1 counterexample: with the DNS probe failing and the WHOIS call itself
failing (exception), `is_domain_available` does not classify the domain as
UNKNOWN — its result space is a bare boolean, and the failure branch
produces `(False, None)` ("assume registered") which it then caches under
the 24-hour registered TTL instead of any short retry TTL. -/
theorem whois_failure_classified_registered :
    (is_domain_available { dns := .noResolve, whois := .failure, now := 0 } [] "example.com").1
      = (false, none)
    ∧ Cache.find
        (is_domain_available { dns := .noResolve, whois := .failure, now := 0 } [] "example.com").2
        (get_cache_key "example.com")
      = some { data := { is_available := false, whois_data := none, expires_at := 86400 },
               timestamp := 0, expires_at := some 86400 } := by
  constructor
  · decide
  · decide

/-- C1 amended: on a total lookup failure the availability check never
reports the domain available —
`WHOISService.check_domain_availability` classifies any `PywhoisError`
without "No match" and any other exception as UNKNOWN with
`is_available = False`, while `is_domain_available`'s failure branch
reports `(False, None)` (not available, assumed registered). -/
theorem lookup_failure_never_available (nowS nowC : Nat) (domain msg : String)
    (hmsg : strHasSub "No match" msg = false) :
    check_domain_availability nowS domain (.pywhoisErr msg)
      = { domain := domain, is_available := false, status := .unknown,
          whois_data := none, error_field := true }
    ∧ check_domain_availability nowS domain .otherErr
      = { domain := domain, is_available := false, status := .unknown,
          whois_data := none, error_field := true }
    ∧ classify_lookup nowC .failure
      = { is_available := false, whois_data := none, early_return := false } := by
  refine ⟨?_, rfl, rfl⟩
  simp [check_domain_availability, lookup_domain, hmsg]

/-- Witness for C1's amended theorem at a concrete timed-out lookup. -/
theorem lookup_failure_never_available_witness :
    strHasSub "No match" "connection timed out" = false ∧
    (check_domain_availability 0 "example.com" (.pywhoisErr "connection timed out")
        = { domain := "example.com", is_available := false, status := .unknown,
            whois_data := none, error_field := true }
      ∧ check_domain_availability 0 "example.com" .otherErr
        = { domain := "example.com", is_available := false, status := .unknown,
            whois_data := none, error_field := true }
      ∧ classify_lookup 0 .failure
        = { is_available := false, whois_data := none, early_return := false }) :=
  ⟨by decide,
    lookup_failure_never_available 0 0 "example.com" "connection timed out" (by decide)⟩

/-- C8 counterexample: checking the empty string does not fail with any
typed error — the embedded `is_domain_available` is total because the
source raises nothing on this path; the leading `if not domain` guard
returns the ordinary result `(False, None)` and leaves the cache alone,
so "normalize('') fails InvalidDomainFormat" is false of the code (no
InvalidDomainFormat error exists in the repository). -/
theorem empty_domain_yields_result_not_error :
    is_domain_available { dns := .noResolve, whois := .failure, now := 0 } [] ""
      = ((false, none), []) := by
  decide

/-- C8 amended: normalization maps "https://WWW.Example.COM/" to
"example.com" (lower-casing, stripping "www." and the protocol text,
truncating at the first slash), and for the empty string
`is_domain_available` returns `(False, None)` with the cache untouched —
an early-guard result, not an InvalidDomainFormat failure. -/
theorem normalize_url_and_empty_guard :
    normalize_domain "https://WWW.Example.COM/" = "example.com"
    ∧ ∀ (env : CheckEnv) (c : Cache CachedData),
        is_domain_available env c "" = ((false, none), c) :=
  ⟨by decide, fun env c => rfl⟩

/-- C9 counterexample: two concurrent `is_domain_available` calls for the
same domain, interleaved so that both read the (empty) cache before either
writes, perform two external lookups — not the exactly one the
single-flight requirement demands. -/
theorem interleaved_checks_two_lookups :
    (sf_run sf_env "example.com" [true, false, true, false] (sf_init [])).lookups = 2 := by
  decide

/-- C9 amended: the code has no single-flight deduplication — when the two
calls overlap (both read before either writes) each performs its own
external lookup (two in total, though both callers do compute the same
result); only when one call completes its cache write before the other
starts does the second reuse the cached entry and exactly one external
lookup happen. -/
theorem no_single_flight_only_cache_dedup :
    (let overlapped := sf_run sf_env "example.com" [true, false, true, false] (sf_init [])
     overlapped.lookups = 2
       ∧ overlapped.caller1 = .finished (true, none)
       ∧ overlapped.caller2 = .finished (true, none))
    ∧ (let sequential := sf_run sf_env "example.com" [true, true, false, false] (sf_init [])
       sequential.lookups = 1
         ∧ sequential.caller1 = .finished (true, none)
         ∧ sequential.caller2 = .finished (true, none)) := by
  constructor
  · exact ⟨by decide, by decide, by decide⟩
  · exact ⟨by decide, by decide, by decide⟩

/-- C2 counterexample: at `t = 1000` the watch last checked at `t = 900`
with a 60-minute interval is not yet due (`1000 < 900 + 3600`), yet the
monitor cycle still checks it rather than skipping it — the cycle's
processed list contains an entry for the watch, i.e. `_process_watch` (and
with it the synchronous registry lookup) was invoked for it.  The entry is
the unchanged row with nothing sent, because every `_process_watch` call
ends in its exception handler at the `await`-on-sync `TypeError` and rolls
back. -/
theorem not_due_watch_still_checked :
    ((1000 : Int) < 900 + 60 * 60)
    ∧ monitor_cycle 1000 registered_lookup_fn [watch_not_due]
        = [(watch_not_due, [])] := by
  constructor
  · decide
  · decide

/-- C2 amended: in every monitor cycle each active watch is processed
unconditionally — the loop applies no due-time computation from
`check_frequency`/`last_checked` — and only watches not flagged active are
excluded from the cycle (each per-watch processing then terminates in the
exception handler, leaving the row unchanged; see `process_watch`). -/
theorem monitor_cycle_checks_every_active (now : Int)
    (lookup : String → Except HTTPExc LookupData) (ws : List Watch) :
    (∀ w, w ∈ ws → w.is_active = true →
        process_watch now (lookup w.domain) w ∈ monitor_cycle now lookup ws)
    ∧ (monitor_cycle now lookup ws).length = (get_active_watches ws).length
    ∧ (∀ w, w ∈ get_active_watches ws → w.is_active = true) := by
  refine ⟨?_, by simp [monitor_cycle, get_active_watches], ?_⟩
  · intro w hw ha
    exact List.mem_map_of_mem _ (List.mem_filter.mpr ⟨hw, ha⟩)
  · intro w hw
    exact (List.mem_filter.mp hw).2

/-- Witness for C2's amended theorem: the concrete not-yet-due active watch
is among the watches processed by the cycle. -/
theorem monitor_cycle_checks_every_active_witness :
    watch_not_due ∈ [watch_not_due] ∧ watch_not_due.is_active = true ∧
    process_watch 1000 (registered_lookup_fn watch_not_due.domain) watch_not_due
      ∈ monitor_cycle 1000 registered_lookup_fn [watch_not_due] :=
  ⟨List.mem_singleton_self watch_not_due, rfl,
    (monitor_cycle_checks_every_active 1000 registered_lookup_fn [watch_not_due]).1
      watch_not_due (List.mem_singleton_self watch_not_due) rfl⟩

/-- C4 (code bug): processing the registered watch against a fresh
classification of AVAILABLE raises nothing and persists nothing — every
`_process_watch` call dies at the `await` on the synchronous
`lookup_domain` and rolls back, so the row comes back unchanged with no
notification — while the dead update/notification block below the `await`
(`process_watch_success_block`), had it been reached, would have done
exactly what the claim says: committed `last_status = "available"` with
`last_checked` advanced and sent one DOMAIN_AVAILABLE notification. -/
theorem registered_to_available_rolls_back :
    watch_not_due.last_status = some "registered"
    ∧ available_lookup.status = DomainStatus.available
    ∧ process_watch 1000 (.ok available_lookup) watch_not_due
        = (watch_not_due, [])
    ∧ process_watch_success_block 1000 available_lookup watch_not_due
        = ({ watch_not_due with
             last_checked := some 1000,
             last_status := some "available",
             whois_data := some available_lookup },
           [{ user_id := 1, domain := "example.com", kind := .domain_available }]) := by
  refine ⟨rfl, rfl, rfl, ?_⟩
  decide

/-- C5 (code bug): on the first-ever check of a NULL-status watch the code
indeed raises no event — it raises none on any check — but it also records
nothing: processing dies at the `await`-on-sync `TypeError` and rolls back,
so the baseline status is never stored (the row returns with `last_status`
still NULL).  The dead block below the `await`
(`process_watch_success_block`) would have recorded the baseline silently,
as the claim intends; and watches inserted by `create_with_user` start at
`last_status = "unknown"`, so for them the NULL first-check case never even
arises. -/
theorem first_check_records_nothing :
    unset_status_watch.last_status = none
    ∧ process_watch 100 (.ok registered_lookup) unset_status_watch
        = (unset_status_watch, [])
    ∧ process_watch_success_block 100 registered_lookup unset_status_watch
        = ({ unset_status_watch with
             last_checked := some 100,
             last_status := some "registered",
             whois_data := some registered_lookup }, [])
    ∧ fresh_watch.last_status = some "unknown" := by
  refine ⟨rfl, rfl, ?_, rfl⟩
  decide

/-- C6 (code bug): the expiring-soon reminder is dead on the real path.
Processing the watch never reaches change detection at all (the
`await`-on-sync `TypeError` rolls back).  And `_check_for_domain_changes`
itself, evaluated directly on a record whose `expiration_date` is five days
away and whose status did not change, sends nothing when the date is a
`datetime` (the `isinstance(expiration_date, str)` guard — the type the
WHOIS library actually returns) and nothing when it is a `Z`-suffixed ISO
string (parses offset-aware, so `exp - datetime.utcnow()` raises
`TypeError`, caught); only a naive ISO string — which the inner parse step
shows was not meant to be the sole admissible form — raises the
DOMAIN_EXPIRING reminder. -/
theorem datetime_expiration_skips_expiring_reminder :
    process_watch 0 (.ok exp5_dt_lookup) exp5_watch = (exp5_watch, [])
    ∧ check_for_domain_changes 0 exp5_watch (some "registered") exp5_dt_lookup = []
    ∧ check_for_domain_changes 0 exp5_watch (some "registered") exp5_aware_lookup = []
    ∧ check_for_domain_changes 0 exp5_watch (some "registered") exp5_naive_lookup
        = [{ user_id := 7, domain := "example-test.io", kind := .domain_expiring }] := by
  refine ⟨rfl, ?_, ?_, ?_⟩
  · decide
  · decide
  · decide

end NameSearch
